import Mathlib

/-!
Verification development for the MiniLog / XLog logging library.

The C++ sources are shallowly embedded: `std::string` values are modelled as
lists of byte values (`List Nat`), machine integers as `Nat`/`Int`, fallible
constructors as `Except`, and the one stateful class (`XLog`) as explicit
state passing.  The C library calendar functions (`localtime`, `mktime`,
treated by the specification as external pure utilities) are passed as
function parameters; a concrete UTC instantiation is provided so that
statements can be evaluated on concrete inputs.
-/

/-- Byte values of a Lean string literal; used to write concrete C++ string
literals in the embedding. -/
def strBytes (s : String) : List Nat := s.toList.map Char.toNat

/-- Fuel-indexed digit expansion; the fuel bounds the recursion depth so the
definition is structural and kernel-reducible. -/
def natToDecAux : Nat → Nat → List Nat
  | 0, _ => []
  | fuel + 1, n =>
    if n < 10 then [48 + n] else natToDecAux fuel (n / 10) ++ [48 + n % 10]

/-- Model of `std::to_string` on a natural number: its decimal digit bytes. -/
def natToDec (n : Nat) : List Nat := natToDecAux (n + 1) n

/-- Model of `std::to_string` on an `int`. -/
def intToDec (z : Int) : List Nat :=
  if z < 0 then 45 :: natToDec (-z).toNat else natToDec z.toNat

/-- `isdigit` on a byte. -/
def isDigitByte (c : Nat) : Bool := 48 ≤ c && c ≤ 57

/-- `isspace` on a byte. -/
def isSpaceByte (c : Nat) : Bool :=
  c == 32 || c == 9 || c == 10 || c == 11 || c == 12 || c == 13

/-- The digit-consuming loop of `atoi`: accumulates decimal digits, stopping
at the first non-digit byte. -/
def digitsVal (acc : Nat) : List Nat → Nat
  | [] => acc
  | c :: cs => if isDigitByte c then digitsVal (acc * 10 + (c - 48)) cs else acc

/-- Model of C `atoi`: skip leading whitespace, optional sign, then a run of
decimal digits; `0` when no digits are found. -/
def atoi (s : List Nat) : Int :=
  match s.dropWhile isSpaceByte with
  | [] => 0
  | c :: cs =>
    if c == 45 then -(digitsVal 0 cs : Int)
    else if c == 43 then (digitsVal 0 cs : Int)
    else (digitsVal 0 (c :: cs) : Int)

/-- Model of `std::string::substr(i, n)`. -/
def substr (s : List Nat) (i n : Nat) : List Nat := (s.drop i).take n

/-- Model of the C `tm` broken-down-time record, restricted to the six fields
this library reads and writes (`tm_isdst` and the derived fields are never
set by the code paths under verification). -/
structure Tm where
  tm_year : Int
  tm_mon : Int
  tm_mday : Int
  tm_hour : Int
  tm_min : Int
  tm_sec : Int
deriving DecidableEq, Repr

/-- Days since 1970-01-01 of a civil date (proleptic Gregorian calendar,
Howard Hinnant's algorithm with C-style truncating division).  Models the
calendar arithmetic inside the external C library `mktime`, in a fixed UTC
time zone. -/
def daysFromCivil (y m d : Int) : Int :=
  let y' := if m ≤ 2 then y - 1 else y
  let era := Int.tdiv (if 0 ≤ y' then y' else y' - 399) 400
  let yoe := y' - era * 400
  let doy := Int.tdiv (153 * (if 2 < m then m - 3 else m + 9) + 2) 5 + d - 1
  let doe := yoe * 365 + Int.tdiv yoe 4 - Int.tdiv yoe 100 + doy
  era * 146097 + doe - 719468

/-- Civil date (year, month, day) of a count of days since 1970-01-01;
inverse direction of `daysFromCivil`. -/
def civilFromDays (z0 : Int) : Int × Int × Int :=
  let z := z0 + 719468
  let era := Int.tdiv (if 0 ≤ z then z else z - 146096) 146097
  let doe := z - era * 146097
  let yoe := Int.tdiv (doe - Int.tdiv doe 1460 + Int.tdiv doe 36524 - Int.tdiv doe 146096) 365
  let y := yoe + era * 400
  let doy := doe - (365 * yoe + Int.tdiv yoe 4 - Int.tdiv yoe 100)
  let mp := Int.tdiv (5 * doy + 2) 153
  let d := doy - Int.tdiv (153 * mp + 2) 5 + 1
  let m := if mp < 10 then mp + 3 else mp - 9
  (if m ≤ 2 then y + 1 else y, m, d)

/-- Concrete model of the external C library `localtime` in a fixed UTC time
zone: breaks an epoch-second count into civil fields. -/
def localtimeUTC (t : Int) : Tm :=
  let days := Int.fdiv t 86400
  let secs := t - days * 86400
  let c := civilFromDays days
  { tm_year := c.1 - 1900
    tm_mon := c.2.1 - 1
    tm_mday := c.2.2
    tm_hour := Int.tdiv secs 3600
    tm_min := Int.tdiv (Int.tmod secs 3600) 60
    tm_sec := Int.tmod secs 60 }

/-- Concrete model of the external C library `mktime` in a fixed UTC time
zone: rebuilds the epoch-second count from the six civil fields. -/
def mktimeUTC (lt : Tm) : Int :=
  daysFromCivil (lt.tm_year + 1900) (lt.tm_mon + 1) lt.tm_mday * 86400
    + lt.tm_hour * 3600 + lt.tm_min * 60 + lt.tm_sec

/-- A writable destination: one of the three standard console streams, a file
stream created by the library (carrying its open state), or some other
externally supplied stream. -/
inductive StreamRef where
  | cout
  | cerr
  | clog
  | file (isOpen : Bool)
  | strm (id : Nat)
deriving DecidableEq, Repr

namespace xlog

/-! Embedding of the final evolution in `src/include/xlog.hpp` (second copy,
lines 482-1349); identical declarations of the earlier `xlog.h` evolution are
shared where the source text coincides. -/

def INFO : Nat := 0x01
def ATTENTION : Nat := 0x02
def WARNING : Nat := 0x04
def ERROR : Nat := 0x08
def FATAL : Nat := 0x10

def ALL_LEVEL : Nat := INFO ||| ATTENTION ||| WARNING ||| ERROR ||| FATAL

/-- `xlog::levelToString`: one fixed tag per level, empty for anything else. -/
def levelToString (level : Nat) : List Nat :=
  if level = INFO then strBytes "[Info]"
  else if level = ATTENTION then strBytes "[Attention]"
  else if level = WARNING then strBytes "[Warning]"
  else if level = ERROR then strBytes "[Error]"
  else if level = FATAL then strBytes "[Fatal]"
  else []

/-- `xlog::timeToString` of the final evolution (xlog.hpp lines 898-923):
manual zero-padding of the six fields, no brackets.  The external C library
`localtime` is a parameter. -/
def timeToString (localtime : Int → Tm) (timeSeparator dateSeparator separator : Nat)
    (time : Int) : List Nat :=
  let lt := localtime time
  let y : Int := lt.tm_year + 1900
  let hour := if lt.tm_hour < 10 then 48 :: intToDec lt.tm_hour else intToDec lt.tm_hour
  let min := if lt.tm_min < 10 then 48 :: intToDec lt.tm_min else intToDec lt.tm_min
  let sec := if lt.tm_sec < 10 then 48 :: intToDec lt.tm_sec else intToDec lt.tm_sec
  let year0 := intToDec y
  let mon := if lt.tm_mon + 1 < 10 then 48 :: intToDec (lt.tm_mon + 1)
             else intToDec (lt.tm_mon + 1)
  let day := if lt.tm_mday < 10 then 48 :: intToDec lt.tm_mday else intToDec lt.tm_mday
  let year :=
    if y < 1 then strBytes "0000" ++ year0
    else if y < 10 then strBytes "000" ++ year0
    else if y < 100 then strBytes "00" ++ year0
    else if y < 1000 then 48 :: year0
    else year0
  year ++ [dateSeparator] ++ mon ++ [dateSeparator] ++ day ++ [separator] ++
    hour ++ [timeSeparator] ++ min ++ [timeSeparator] ++ sec

/-- `xlog::stringToTime` (same text in xlog.h lines 47-64 and xlog.hpp lines
930-941): fixed-offset substring extraction through `atoi`, then the external
C library `mktime`, which is a parameter. -/
def stringToTime (mktime : Tm → Int) (str : List Nat) : Int :=
  let lt : Tm :=
    { tm_year := atoi (substr str 0 4) - 1900
      tm_mon := atoi (substr str 5 2) - 1
      tm_mday := atoi (substr str 8 2)
      tm_hour := atoi (substr str 11 2)
      tm_min := atoi (substr str 14 2)
      tm_sec := atoi (substr str 17 2) }
  mktime lt

/-- `xlog::TimeRange` of the final evolution: `-1` sentinels. -/
structure TimeRange where
  start : Int
  end_ : Int
deriving DecidableEq, Repr

def ALL_TIME : TimeRange := ⟨-1, -1⟩

/-- `TimeRange::isValid` (xlog.hpp line 1047): both bounds set and ordered. -/
def TimeRange.isValid (r : TimeRange) : Bool :=
  r.start != -1 && r.end_ != -1 && decide (r.start ≤ r.end_)

/-- `TimeRange::contains(time_t)`. -/
def TimeRange.containsTime (r : TimeRange) (time : Int) : Bool :=
  decide (r.start ≤ time) && decide (time ≤ r.end_)

/-- The time-filter admission test exactly as `XLog::push` (xlog.hpp line
1163) applies it: `!timeFilter_.isValid() || timeFilter_.contains(time)`. -/
def timeAdmits (r : TimeRange) (time : Int) : Bool :=
  !r.isValid || r.containsTime time

/-- `XLog::LogData`. -/
structure LogData where
  level : Nat
  time : Int
  message : List Nat
deriving DecidableEq, Repr

/-- The mutable state of the `XLog` singleton. -/
structure XLogState where
  isFileStream : Bool
  hasLevel : Bool
  hasTimestamp : Bool
  levelFilter : Nat
  timeFilter : TimeRange
  outStream : Option StreamRef
  logs : List LogData
deriving DecidableEq, Repr

/-- The state established by the private `XLog` constructor. -/
def initState : XLogState :=
  { isFileStream := false
    hasLevel := true
    hasTimestamp := true
    levelFilter := ALL_LEVEL
    timeFilter := ALL_TIME
    outStream := none
    logs := [] }

/-- `XLog::logDataToString_` of the final evolution (xlog.hpp 1244-1256):
starts from the message and prepends the optional level tag, then the
optional timestamp, each with a single following space. -/
def logDataToString (localtime : Int → Tm) (data : LogData)
    (hasLevel hasTimestamp : Bool) : List Nat :=
  let r0 := data.message
  let r1 := if hasLevel then levelToString data.level ++ [32] ++ r0 else r0
  let r2 := if hasTimestamp then timeToString localtime 58 45 32 data.time ++ [32] ++ r1 else r1
  r2

/-- `XLog::unbindStream` (destination release is an external effect; the
state afterwards has no bound stream). -/
def unbindStream (s : XLogState) : XLogState :=
  { s with outStream := none, isFileStream := false }

/-- `XLog::bindOutStream`. -/
def bindOutStream (s : XLogState) (stream : StreamRef) : XLogState :=
  { unbindStream s with outStream := some stream }

/-- `XLog::bindFileStream`: opening the file is an external effect summarised
by `canOpen`; an unopenable path raises `FAILED_OPEN_FILE` and leaves the
state unchanged. -/
def bindFileStream (canOpen : Bool) (s : XLogState) : Except (List Nat) XLogState :=
  let ofs : StreamRef := .file canOpen
  if canOpen then
    .ok { bindOutStream (unbindStream s) ofs with isFileStream := true }
  else
    .error (strBytes "Failed to open the file.")

/-- `XLog::push` of the final evolution (xlog.hpp 1155-1168).  The current
time, read from the external clock, is a parameter; the second component is
the line written to the bound stream, when one is written. -/
def push (localtime : Int → Tm) (s : XLogState) (level : Nat) (time : Int)
    (message : List Nat) : XLogState × Option (List Nat) :=
  let data : LogData := ⟨level, time, message⟩
  let logs' := s.logs ++ [data]
  let levelpass : Bool := (s.levelFilter &&& level) != 0
  let timepass : Bool := !s.timeFilter.isValid || s.timeFilter.containsTime time
  let written :=
    if s.outStream.isSome && levelpass && timepass then
      some (logDataToString localtime data s.hasLevel s.hasTimestamp)
    else none
  ({ s with logs := logs' }, written)

/-- `XLog::popFront` (xlog.hpp 1170-1175): `logs_.pop_front()` with no
emptiness check.  `none` marks the violated `std::list::pop_front`
precondition (undefined behaviour in the source), not a checked error. -/
def popFront (s : XLogState) : Option XLogState :=
  match s.logs with
  | [] => none
  | _ :: rest => some { s with logs := rest }

/-- `XLog::popBack` (xlog.hpp 1177-1182): `logs_.pop_back()` with no
emptiness check; `none` marks the violated precondition as in `popFront`. -/
def popBack (s : XLogState) : Option XLogState :=
  if s.logs.isEmpty then none else some { s with logs := s.logs.dropLast }

end xlog

namespace xlogh

/-! Embedding of the `src/include/xlog.h` evolution where it differs from the
final one: its `TimeRange` (zero sentinels, different `isValid`), its
admission test in `XLog::push` (line 222-223), and its bracketed
`timeToString` (lines 36-45). -/

/-- `xlog::TimeRange` of xlog.h: default-constructed bounds are `0`. -/
structure TimeRange where
  start : Int
  end_ : Int
deriving DecidableEq, Repr

def ALL_TIME : TimeRange := ⟨0, 0⟩

/-- `TimeRange::isValid` (xlog.h lines 96-99). -/
def TimeRange.isValid (r : TimeRange) : Bool :=
  decide (r.start ≤ r.end_) || r.start == 0 || r.end_ == 0

/-- `TimeRange::contains(time_t)` (xlog.h lines 101-104). -/
def TimeRange.containsTime (r : TimeRange) (time : Int) : Bool :=
  decide (r.start ≤ time) && decide (time ≤ r.end_)

/-- The time-filter admission test exactly as `XLog::push` in xlog.h applies
it (lines 222-223): `timeFilter_.isValid() && timeFilter_.contains(time)`. -/
def timeAdmits (r : TimeRange) (time : Int) : Bool :=
  r.isValid && r.containsTime time

/-- Left-pad a decimal rendering with zeros to width `w`; models the
zero-padded conversion specifiers of the external `strftime`. -/
def padZeros (w : Nat) (z : Int) : List Nat :=
  let s := intToDec z
  List.replicate (w - s.length) 48 ++ s

/-- `xlog::timeToString` of xlog.h (lines 36-45): the external
`strftime(.., "[%Y-%m-%d %H:%M:%S]", &lt)` call, which brackets the
timestamp.  The external C library `localtime` is a parameter. -/
def timeToString (localtime : Int → Tm) (time : Int) : List Nat :=
  let lt := localtime time
  [91] ++ padZeros 4 (lt.tm_year + 1900) ++ [45] ++ padZeros 2 (lt.tm_mon + 1) ++ [45] ++
    padZeros 2 lt.tm_mday ++ [32] ++ padZeros 2 lt.tm_hour ++ [58] ++
    padZeros 2 lt.tm_min ++ [58] ++ padZeros 2 lt.tm_sec ++ [93]

/-- `XLog::logDataToString_` of xlog.h (lines 302-314): same prepending
structure as the final evolution but with the bracketed `timeToString`. -/
def logDataToString (localtime : Int → Tm) (data : xlog.LogData)
    (hasLevel hasTimestamp : Bool) : List Nat :=
  let r0 := data.message
  let r1 := if hasLevel then xlog.levelToString data.level ++ [32] ++ r0 else r0
  let r2 := if hasTimestamp then timeToString localtime data.time ++ [32] ++ r1 else r1
  r2

end xlogh

namespace mlog1

/-! Embedding of the first evolution in `src/include/minilog.hpp` (lines
28-572): the named-sink registry (`mlog::Sinks`, `mlog::Logger`). -/

def DEBUG : Nat := 0x01
def INFO : Nat := 0x02
def WARN : Nat := 0x04
def ERROR : Nat := 0x08
def FATAL : Nat := 0x10
def LEVEL_ALL : Nat := 0xFF
def OUT_FLAG_ALL : Nat := 0xFF

/-- `mlog::Sinks`: output flags, level filter (field spelled `leveFilter_` in
the source), stream pointer and ownership flag. -/
structure Sinks where
  isOsCreatedByOwn : Bool
  outFlag : Nat
  leveFilter : Nat
  os : Option StreamRef
deriving DecidableEq, Repr

/-- `Sinks::Sinks(std::ostream&, ..)`: borrow a caller-supplied stream. -/
def sinksOfStream (outStream : StreamRef) (outFlag leveFilter : Nat) : Sinks :=
  { isOsCreatedByOwn := false, outFlag := outFlag, leveFilter := leveFilter,
    os := some outStream }

/-- `Sinks::Sinks(const std::string& filename, ..)` (minilog.hpp 146-152).
Opening the file is an external effect summarised by `canOpen`.  The source
guards with `if (!os_) throw`, but `new std::ofstream(..)` never yields a
null pointer, so the guard condition is the constant `false`: construction
completes even when the file cannot be opened, holding a failed stream. -/
def sinksOfFile (canOpen : Bool) (outFlag leveFilter : Nat) : Except (List Nat) Sinks :=
  let os : StreamRef := .file canOpen
  let osIsNull : Bool := false
  if osIsNull then .error (strBytes "Failed to open the file: ")
  else .ok { isOsCreatedByOwn := true, outFlag := outFlag, leveFilter := leveFilter,
             os := some os }

/-- `Logger::addSinks` (minilog.hpp 279-289): inserting under a name that is
already present returns early and leaves the registry unchanged; otherwise
the sink is inserted under the new name. -/
def addSinks (sinks_ : List (String × Sinks)) (nameid : String) (sinks : Sinks) :
    List (String × Sinks) :=
  if (sinks_.lookup nameid).isSome then sinks_
  else sinks_ ++ [(nameid, sinks)]

end mlog1

namespace mlog2

/-! Embedding of the second evolution in `src/include/minilog.hpp` (lines
601-1143) and its near-identical copy `src/unnamed/part_001`: the anonymous
sink vector (`Logger::OutStream`), indexed mutation, dispatch and the
`mlog::format` template formatter. -/

def LVL_DEBUG : Nat := 0x01
def LVL_INFO : Nat := 0x02
def LVL_WARN : Nat := 0x04
def LVL_ERROR : Nat := 0x08
def LVL_FATAL : Nat := 0x10
def OUT_WITH_LEVEL : Nat := 0x01
def OUT_WITH_TIMESTAMP : Nat := 0x02
def OUT_WITH_COLORIZE : Nat := 0x04
def LEVLE_FILTER_ALL : Nat := 0xFF
def OUT_WITH_ALL : Nat := 0xFF

/-- `mlog::levelToString` of the second evolution. -/
def levelToString (level : Nat) : List Nat :=
  if level = LVL_DEBUG then strBytes "[Debug]"
  else if level = LVL_INFO then strBytes "[Info]"
  else if level = LVL_WARN then strBytes "[Warn]"
  else if level = LVL_ERROR then strBytes "[Error]"
  else if level = LVL_FATAL then strBytes "[Fatal]"
  else []

/-- `Logger::OutStream`: flags, level filter and stream pointer. -/
structure OutStream where
  outflag : Nat
  levelFilter : Nat
  os : Option StreamRef
deriving DecidableEq, Repr

/-- `Logger::FileOutStream` constructor (minilog.hpp 1012-1019): creates the
file stream (external effect summarised by `canOpen`) and throws unless the
stream pointer is non-null (always true for `new`) and the stream is open. -/
def fileOutStreamCtor (canOpen : Bool) (outflag levelFilter : Nat) :
    Except (List Nat) OutStream :=
  let os : StreamRef := .file canOpen
  let osIsNull : Bool := false
  if osIsNull || !canOpen then .error (strBytes "Failed to open the file: ")
  else .ok { outflag := outflag, levelFilter := levelFilter, os := some os }

/-- `Logger::removeOs` (minilog.hpp 841-850): erase at `index`, throwing when
the index is out of range. -/
def removeOs (outs_ : List OutStream) (index : Nat) : Except (List Nat) (List OutStream) :=
  if outs_.length ≤ index then .error (strBytes "The index is out range.")
  else .ok (outs_.take index ++ outs_.drop (index + 1))

/-- `Logger::removeLastOs` (minilog.hpp 852-860): pops the last sink when one
is present and silently does nothing otherwise. -/
def removeLastOs (outs_ : List OutStream) : List OutStream :=
  if outs_.isEmpty then outs_ else outs_.dropLast

/-- `Logger::setLastOsAttribute` (minilog.hpp 873-882): throws on an empty
vector, otherwise overwrites the last sink's flag and filter. -/
def setLastOsAttribute (outs_ : List OutStream) (outflag levelFilter : Nat) :
    Except (List Nat) (List OutStream) :=
  match outs_.getLast? with
  | none => .error (strBytes "No specify member.")
  | some o => .ok (outs_.dropLast ++
      [{ o with outflag := outflag, levelFilter := levelFilter }])

def colorReset : List Nat := strBytes "\x1b[0m"

/-- The colour chosen by the `switch (level)` in `Logger::log`. -/
def levelColor (level : Nat) : List Nat :=
  if level = LVL_DEBUG then strBytes "\x1b[0m\x1b[34m"
  else if level = LVL_INFO then strBytes "\x1b[0m\x1b[32m"
  else if level = LVL_WARN then strBytes "\x1b[0m\x1b[33m"
  else if level = LVL_ERROR then strBytes "\x1b[0m\x1b[31m"
  else if level = LVL_FATAL then strBytes "\x1b[0m\x1b[35m"
  else strBytes "\x1b[0m"

/-- `os->os == &std::cout || os->os == &std::cerr || os->os == &std::clog`. -/
def isConsole (os : Option StreamRef) : Bool :=
  os == some .cout || os == some .cerr || os == some .clog

/-- The line assembled by `Logger::log` for one sink (minilog.hpp 896-937):
optional (optionally colorised) timestamp segment, optional (optionally
colorised) level segment, message, `std::endl`. -/
def renderLine (outflag : Nat) (isCons : Bool) (curtimeStr : List Nat) (level : Nat)
    (message : List Nat) : List Nat :=
  let isColorize := isCons && ((outflag &&& OUT_WITH_COLORIZE) != 0)
  let tsSeg :=
    if (outflag &&& OUT_WITH_TIMESTAMP) != 0 then
      (if isColorize then strBytes "\x1b[0m\x1b[1;30m" else []) ++ curtimeStr ++
        (if isColorize then colorReset else []) ++ [32]
    else []
  let lvSeg :=
    if (outflag &&& OUT_WITH_LEVEL) != 0 then
      (if isColorize then levelColor level else []) ++ levelToString level ++
        (if isColorize then colorReset else []) ++ [32]
    else []
  tsSeg ++ lvSeg ++ message ++ [10]

/-- What one iteration of the sink loop in `Logger::log` (minilog.hpp
892-941) delivers to one sink: nothing when the level filter rejects
(`continue`) or when the stream pointer is null, otherwise the rendered
line. -/
def sinkWrite (curtimeStr : List Nat) (level : Nat) (message : List Nat)
    (o : OutStream) : Option (List Nat) :=
  if (level &&& o.levelFilter) == 0 then none
  else
    match o.os with
    | none => none
    | some _ => some (renderLine o.outflag (isConsole o.os) curtimeStr level message)

/-- `Logger::log` over the whole sink vector: the per-sink deliveries, in
registration order. -/
def logWrites (curtimeStr : List Nat) (level : Nat) (message : List Nat)
    (outs_ : List OutStream) : List (Option (List Nat)) :=
  outs_.map (sinkWrite curtimeStr level message)

/-- `std::string::find("\x7b\x7d")`: index of the first `\x7b\x7d`. -/
def findBracePair : List Nat → Option Nat
  | a :: b :: rest =>
    if a == 123 && b == 125 then some 0
    else (findBracePair (b :: rest)).map (· + 1)
  | _ => none

/-- The scanning loop of `mlog::format` (minilog.hpp 699-720) over the
suffix of the template still to be examined; the source's 4-byte window is
NUL-padded when fewer than 4 bytes remain, so a short suffix can never match
the escape `\x7b\x7b\x7d\x7d`. -/
def formatGo (arg : List Nat) : List Nat → List Nat
  | a :: b :: c :: d :: rest =>
    if a == 123 && b == 123 && c == 125 && d == 125 then
      123 :: 125 :: formatGo arg rest
    else if a == 123 && b == 125 then
      arg ++ (c :: d :: rest)
    else
      a :: formatGo arg (b :: c :: d :: rest)
  | a :: b :: rest =>
    if a == 123 && b == 125 then arg ++ rest
    else a :: formatGo arg (b :: rest)
  | [a] => [a]
  | [] => []

/-- `mlog::format` with one argument (minilog.hpp 683-723); the argument is
taken already rendered to its byte string.  A call with exactly one
formatting argument resolves to this overload. -/
def format1 (fmt arg : List Nat) : List Nat :=
  if fmt.length < 4 then
    match findBracePair fmt with
    | none => fmt
    | some pos => fmt.take pos ++ arg ++ fmt.drop (pos + 2)
  else formatGo arg fmt

end mlog2

namespace xlog

/-- The specification's admission rule for the time filter, stated from its
words (for comparison with the admission test of the source): a range is
active (restrictive) only when both bounds are explicitly set (differ from
the `-1` sentinel) and ordered; an entry is admitted when the range is not
active or the timestamp lies inside the inclusive window. -/
def specTimeAdmits (r : TimeRange) (time : Int) : Prop :=
  ¬ (r.start ≠ -1 ∧ r.end_ ≠ -1 ∧ r.start ≤ r.end_) ∨ (r.start ≤ time ∧ time ≤ r.end_)

end xlog

theorem natToDecAux_congr : ∀ f g n : Nat, n < f → n < g →
    natToDecAux f n = natToDecAux g n := by
  intro f
  induction f with
  | zero => omega
  | succ f ih =>
    intro g n hf hg
    cases g with
    | zero => omega
    | succ g =>
      by_cases h : n < 10
      · simp [natToDecAux, h]
      · have hdiv : n / 10 < n := Nat.div_lt_self (by omega) (by omega)
        simp only [natToDecAux, if_neg h]
        rw [ih g (n / 10) (by omega) (by omega)]

theorem natToDec_of_lt {n : Nat} (h : n < 10) : natToDec n = [48 + n] := by
  simp [natToDec, natToDecAux, h]

theorem natToDec_of_ge {n : Nat} (h : 10 ≤ n) :
    natToDec n = natToDec (n / 10) ++ [48 + n % 10] := by
  have hdiv : n / 10 < n := Nat.div_lt_self (by omega) (by omega)
  show natToDecAux (n + 1) n = _
  simp only [natToDecAux, if_neg (by omega : ¬ n < 10)]
  rw [natToDecAux_congr n (n / 10 + 1) (n / 10) (by omega) (by omega)]
  rfl

/-- C2, counterexample: in the `xlog.h` evolution the admission test applied
by `XLog::push` is `isValid && contains`, so the default-constructed range
`(0, 0)` — which the claim says admits every entry — rejects timestamp `1`. -/
theorem c2_xlogh_default_range_rejects :
    xlogh.timeAdmits xlogh.ALL_TIME 1 = false := by decide

/-- C2 (amended to the final evolution): the admission test of `XLog::push`
in xlog.hpp admits a timestamp iff the range is inactive (a bound left at
the `-1` sentinel or the bounds unordered) or the timestamp lies inside the
inclusive window; the default-constructed range admits every timestamp. -/
theorem c2_time_filter_admission :
    (∀ (r : xlog.TimeRange) (time : Int),
        xlog.timeAdmits r time = true ↔ xlog.specTimeAdmits r time)
    ∧ (∀ time : Int, xlog.timeAdmits xlog.ALL_TIME time = true) := by
  constructor
  · intro r time
    simp only [xlog.timeAdmits, xlog.specTimeAdmits, xlog.TimeRange.isValid,
      xlog.TimeRange.containsTime, Bool.or_eq_true, Bool.not_eq_true',
      Bool.and_eq_false_iff, Bool.and_eq_true, bne_iff_ne, ne_eq,
      decide_eq_true_eq, decide_eq_false_iff_not, bne_eq_false_iff_eq]
    tauto
  · intro time
    simp [xlog.timeAdmits, xlog.ALL_TIME, xlog.TimeRange.isValid]

/-- C3: `XLog::push` appends exactly the new entry at the end of the history
unconditionally, and mirrors a rendered line to the bound stream iff a
stream is bound, the level filter admits the level, and the time filter
admits the timestamp. -/
theorem c3_push_appends_and_mirrors :
    ∀ (localtime : Int → Tm) (s : xlog.XLogState) (level : Nat) (time : Int)
      (message : List Nat),
      (xlog.push localtime s level time message).1 =
        { s with logs := s.logs ++ [⟨level, time, message⟩] }
      ∧ ((xlog.push localtime s level time message).2.isSome = true ↔
          (s.outStream.isSome = true ∧ s.levelFilter &&& level ≠ 0 ∧
            xlog.timeAdmits s.timeFilter time = true)) := by
  intro localtime s level time message
  refine ⟨rfl, ?_⟩
  simp only [xlog.push, xlog.timeAdmits]
  split
  · rename_i h
    simp only [Option.isSome_some, true_iff]
    simp only [Bool.and_eq_true, bne_iff_ne, ne_eq] at h
    exact ⟨h.1.1, h.1.2, h.2⟩
  · rename_i h
    simp only [Option.isSome_none, Bool.false_eq_true, false_iff]
    intro hc
    apply h
    simp only [Bool.and_eq_true, bne_iff_ne, ne_eq]
    exact ⟨⟨hc.1, hc.2.1⟩, hc.2.2⟩

/-- C1: in the sink loop of `Logger::log`, each sink's delivery depends only
on that sink (so a sink failing the filter test is skipped and every other
sink in the same call is still served), and a sink whose stream pointer is
bound receives the message iff the level meets its filter mask. -/
theorem c1_level_filter_dispatch :
    ∀ (pre post : List mlog2.OutStream) (o : mlog2.OutStream) (curtimeStr : List Nat)
      (level : Nat) (message : List Nat),
      mlog2.logWrites curtimeStr level message (pre ++ o :: post) =
        mlog2.logWrites curtimeStr level message pre ++
          mlog2.sinkWrite curtimeStr level message o ::
            mlog2.logWrites curtimeStr level message post
      ∧ (o.os.isSome = true →
          ((mlog2.sinkWrite curtimeStr level message o).isSome = true ↔
            level &&& o.levelFilter ≠ 0)) := by
  intro pre post o curtimeStr level message
  constructor
  · simp [mlog2.logWrites]
  · intro hbound
    simp only [mlog2.sinkWrite]
    split
    · rename_i h
      simp only [Option.isSome_none, Bool.false_eq_true, false_iff, ne_eq, not_not]
      exact of_decide_eq_true h
    · rename_i h
      match hos : o.os with
      | some r =>
        simp only [hos, Option.isSome_some, true_iff]
        exact of_decide_eq_false (by simpa using h)
      | none => rw [hos] at hbound; simp at hbound

/-- C1 witness: a two-sink call in which the first sink's filter mask is `0`
(message skipped) while the second, bound sink passes the filter test. -/
theorem c1_level_filter_dispatch_witness :
    ((mlog2.sinkWrite (strBytes "t") mlog2.LVL_INFO (strBytes "m")
        { outflag := 0xFF, levelFilter := 0xFF, os := some .cerr }).isSome = true ↔
      mlog2.LVL_INFO &&& (0xFF : Nat) ≠ 0) :=
  (c1_level_filter_dispatch [{ outflag := 0xFF, levelFilter := 0, os := some .cout }] []
      { outflag := 0xFF, levelFilter := 0xFF, os := some .cerr }
      (strBytes "t") mlog2.LVL_INFO (strBytes "m")).2 (by decide)

/-- Looking a key up past a block that does not contain it. -/
theorem lookup_append_of_none {α β : Type} [BEq α] (l₁ l₂ : List (α × β)) (k : α)
    (h : l₁.lookup k = none) : (l₁ ++ l₂).lookup k = l₂.lookup k := by
  induction l₁ with
  | nil => rfl
  | cons p rest ih =>
    cases p with
    | mk a b =>
      cases hk : (k == a) <;>
        simp only [List.cons_append, List.lookup, hk] at h ⊢
      · exact ih h
      · exact absurd h (by simp)

/-- C6: registering a sink under a name that is already present is a no-op
(the existing sink stays, the new one is discarded); registering under a
fresh name makes the sink retrievable under that name. -/
theorem c6_addSinks_idempotent :
    ∀ (sinks_ : List (String × mlog1.Sinks)) (nameid : String) (a b : mlog1.Sinks),
      mlog1.addSinks (mlog1.addSinks sinks_ nameid a) nameid b =
        mlog1.addSinks sinks_ nameid a
      ∧ (sinks_.lookup nameid = none →
          (mlog1.addSinks sinks_ nameid a).lookup nameid = some a) := by
  intro m x a b
  by_cases h : (m.lookup x).isSome
  · constructor
    · simp [mlog1.addSinks, h]
    · intro hnone
      rw [hnone] at h
      simp at h
  · have hnone : m.lookup x = none := by
      cases hm : m.lookup x
      · rfl
      · rw [hm] at h; simp at h
    have hlk : (m ++ [(x, a)]).lookup x = some a := by
      rw [lookup_append_of_none m [(x, a)] x hnone]
      simp [List.lookup]
    constructor
    · simp only [mlog1.addSinks, h, if_false, Bool.false_eq_true]
      simp [hlk]
    · intro _
      simp only [mlog1.addSinks, h, if_false, Bool.false_eq_true]
      simp [hlk]

/-- C6 witness: registering `sinkA` then `sinkB` under the fresh name `x` in
the empty registry leaves `sinkA` registered. -/
theorem c6_addSinks_idempotent_witness :
    (mlog1.addSinks [] "x" (mlog1.sinksOfStream .cout 0xFF 0xFF)).lookup "x"
      = some (mlog1.sinksOfStream .cout 0xFF 0xFF) :=
  (c6_addSinks_idempotent [] "x" (mlog1.sinksOfStream .cout 0xFF 0xFF)
      (mlog1.sinksOfStream .cerr 0 0)).2 rfl

/-- C5: evaluating `mlog::format` at the specification's own example.  Once
the placeholder is substituted, the remainder of the template is appended
verbatim (minilog.hpp line 714), so the escape `\x7b\x7b\x7d\x7d` that
follows the placeholder is NOT rendered as `\x7b\x7d`; the escape is only
processed when it occurs before the substitution point. -/
theorem c5_format_example_eval :
    mlog2.format1 (strBytes "Value: \x7b\x7d, escaped: \x7b\x7b\x7d\x7d") (strBytes "42")
      = strBytes "Value: 42, escaped: \x7b\x7b\x7d\x7d"
    ∧ mlog2.format1 (strBytes "Value: \x7b\x7d, escaped: \x7b\x7b\x7d\x7d") (strBytes "42")
      ≠ strBytes "Value: 42, escaped: \x7b\x7d"
    ∧ mlog2.format1 (strBytes "\x7b\x7b\x7d\x7d and \x7b\x7d") (strBytes "42")
      = strBytes "\x7b\x7d and 42" := by
  refine ⟨by decide, by decide, by decide⟩

/-- C7: behaviour of the three path-based constructors on an unopenable
destination (`canOpen = false`) and an openable one (`canOpen = true`).  The
`Sinks` filename constructor (minilog.hpp 146-152) completes successfully
holding a failed file stream — its `if (!os_)` guard tests the never-null
`new` result, so the claimed failure is silently swallowed — while
`FileOutStream` and `bindFileStream` do raise the checked failure, and all
three succeed on an openable path. -/
theorem c7_open_failure_behaviour :
    (∀ outFlag leveFilter : Nat,
        mlog1.sinksOfFile false outFlag leveFilter =
          Except.ok { isOsCreatedByOwn := true, outFlag := outFlag,
                      leveFilter := leveFilter, os := some (.file false) })
    ∧ (∀ outflag levelFilter : Nat,
        mlog2.fileOutStreamCtor false outflag levelFilter =
          Except.error (strBytes "Failed to open the file: "))
    ∧ (∀ s : xlog.XLogState,
        xlog.bindFileStream false s = Except.error (strBytes "Failed to open the file."))
    ∧ (∀ outFlag leveFilter : Nat, (mlog1.sinksOfFile true outFlag leveFilter).isOk = true)
    ∧ (∀ outflag levelFilter : Nat,
        (mlog2.fileOutStreamCtor true outflag levelFilter).isOk = true)
    ∧ (∀ s : xlog.XLogState, (xlog.bindFileStream true s).isOk = true) := by
  refine ⟨fun _ _ => rfl, fun _ _ => rfl, fun _ => rfl, fun _ _ => rfl,
    fun _ _ => rfl, fun _ => rfl⟩

/-- C8: evaluation of `XLog::popFront` / `XLog::popBack`.  On a non-empty
history they remove exactly the oldest / newest entry and change nothing
else; on the empty history the source pops an empty `std::list` with no
check, which is a violated precondition (undefined behaviour), modelled by
`none` — not the checked failure the claim describes. -/
theorem c8_pop_front_back :
    xlog.popFront { xlog.initState with logs := [] } = none
    ∧ xlog.popBack { xlog.initState with logs := [] } = none
    ∧ (∀ (s : xlog.XLogState) (d : xlog.LogData) (rest : List xlog.LogData),
        xlog.popFront { s with logs := d :: rest } = some { s with logs := rest })
    ∧ (∀ (s : xlog.XLogState) (older : List xlog.LogData) (d : xlog.LogData),
        xlog.popBack { s with logs := older ++ [d] } = some { s with logs := older }) := by
  refine ⟨rfl, rfl, fun s d rest => rfl, fun s older d => ?_⟩
  simp [xlog.popBack]

/-- C9: the rendered line is composed in the fixed order timestamp segment
(when enabled), level-tag segment (when enabled), message body, each enabled
segment followed by a single space.  First conjunct: `XLog::logDataToString_`
of xlog.h, which builds the line by prepending, equals the ordered
concatenation.  Second conjunct: the per-sink rendering of `Logger::log` for
a non-console destination (never colorised) has the same shape, with the
trailing `std::endl`. -/
theorem c9_render_order :
    (∀ (localtime : Int → Tm) (data : xlog.LogData) (hasLevel hasTimestamp : Bool),
        xlogh.logDataToString localtime data hasLevel hasTimestamp =
          (if hasTimestamp then xlogh.timeToString localtime data.time ++ [32] else []) ++
          (if hasLevel then xlog.levelToString data.level ++ [32] else []) ++
          data.message)
    ∧ (∀ (outflag : Nat) (curtimeStr : List Nat) (level : Nat) (message : List Nat),
        mlog2.renderLine outflag false curtimeStr level message =
          (if (outflag &&& mlog2.OUT_WITH_TIMESTAMP) != 0 then curtimeStr ++ [32] else []) ++
          (if (outflag &&& mlog2.OUT_WITH_LEVEL) != 0 then
            mlog2.levelToString level ++ [32] else []) ++
          message ++ [10]) := by
  constructor
  · intro localtime data hasLevel hasTimestamp
    cases hasLevel <;> cases hasTimestamp <;>
      simp [xlogh.logDataToString, List.append_assoc]
  · intro outflag curtimeStr level message
    simp only [mlog2.renderLine, Bool.false_and, Bool.false_eq_true, if_false,
      List.nil_append, List.append_nil, List.append_assoc]

/-- C10: `Logger::removeLastOs` is total and simply drops the last sink —
on an empty vector it is a silent no-op — while `Logger::setLastOsAttribute`
raises a checked error on an empty vector and `Logger::removeOs` raises a
checked error exactly when the index is out of range. -/
theorem c10_removeLastOs_silent :
    (∀ outs_ : List mlog2.OutStream, mlog2.removeLastOs outs_ = outs_.dropLast)
    ∧ mlog2.removeLastOs [] = []
    ∧ (∀ outflag levelFilter : Nat,
        mlog2.setLastOsAttribute [] outflag levelFilter =
          Except.error (strBytes "No specify member."))
    ∧ (∀ (outs_ : List mlog2.OutStream) (index : Nat),
        mlog2.removeOs outs_ index = Except.error (strBytes "The index is out range.") ↔
          outs_.length ≤ index) := by
  refine ⟨?_, rfl, fun _ _ => rfl, ?_⟩
  · intro outs_
    cases outs_ <;> simp [mlog2.removeLastOs]
  · intro outs_ index
    constructor
    · intro h
      by_contra hlt
      simp [mlog2.removeOs, hlt] at h
    · intro h
      simp [mlog2.removeOs, h]

theorem intToDec_nonneg (z : Int) (h : 0 ≤ z) : intToDec z = natToDec z.toNat := by
  simp [intToDec, not_lt.mpr h]

/-- The two-byte zero-padded rendering used for month, day, hour, minute and
second in the final evolution's `timeToString`. -/
theorem padTwo_eq (z : Int) (h0 : 0 ≤ z) (h99 : z ≤ 99) :
    (if z < 10 then 48 :: intToDec z else intToDec z) =
      [48 + z.toNat / 10, 48 + z.toNat % 10] := by
  by_cases h : z < 10
  · rw [if_pos h, intToDec_nonneg z h0, natToDec_of_lt (by omega)]
    have h1 : z.toNat / 10 = 0 := by omega
    have h2 : z.toNat % 10 = z.toNat := by omega
    rw [h1, h2]
  · rw [if_neg h, intToDec_nonneg z h0, natToDec_of_ge (by omega),
      natToDec_of_lt (by omega)]
    rfl

/-- Four-digit decimal expansion of a year between 1000 and 9999. -/
theorem natToDec_four (n : Nat) (h1 : 1000 ≤ n) (h2 : n ≤ 9999) :
    natToDec n = [48 + n / 1000, 48 + n / 100 % 10, 48 + n / 10 % 10, 48 + n % 10] := by
  rw [natToDec_of_ge (by omega)]
  rw [natToDec_of_ge (show 10 ≤ n / 10 by omega)]
  have e2 : n / 10 / 10 = n / 100 := by omega
  rw [e2]
  rw [natToDec_of_ge (show 10 ≤ n / 100 by omega)]
  have e3 : n / 100 / 10 = n / 1000 := by omega
  rw [e3]
  rw [natToDec_of_lt (show n / 1000 < 10 by omega)]
  have e4 : n / 100 % 10 = n / 100 % 10 := rfl
  simp only [List.append_assoc, List.cons_append, List.nil_append]

theorem isSpaceByte_of_digit (c : Nat) (h : 48 ≤ c) : isSpaceByte c = false := by
  simp only [isSpaceByte, Bool.or_eq_false_iff, beq_eq_false_iff_ne, ne_eq]
  omega

theorem isDigitByte_true (c : Nat) (h1 : 48 ≤ c) (h2 : c ≤ 57) : isDigitByte c = true := by
  simp only [isDigitByte, Bool.and_eq_true, decide_eq_true_eq]
  omega

theorem digitsVal_cons (acc c : Nat) (cs : List Nat) (h : c < 10) :
    digitsVal acc ((48 + c) :: cs) = digitsVal (acc * 10 + c) cs := by
  simp only [digitsVal, isDigitByte_true (48 + c) (by omega) (by omega), if_true]
  have : 48 + c - 48 = c := by omega
  rw [this]

theorem atoi_two_digits (a b : Nat) (ha : a < 10) (hb : b < 10) :
    atoi [48 + a, 48 + b] = ((a * 10 + b : Nat) : Int) := by
  have hs : isSpaceByte (48 + a) = false := isSpaceByte_of_digit _ (by omega)
  simp only [atoi, List.dropWhile, hs]
  have h45 : ((48 + a : Nat) == 45) = false := by simp; omega
  have h43 : ((48 + a : Nat) == 43) = false := by simp; omega
  simp only [h45, h43, Bool.false_eq_true, if_false]
  rw [digitsVal_cons 0 a _ ha, digitsVal_cons (0 * 10 + a) b _ hb]
  simp [digitsVal]

theorem atoi_four_digits (a b c d : Nat) (ha : a < 10) (hb : b < 10) (hc : c < 10)
    (hd : d < 10) :
    atoi [48 + a, 48 + b, 48 + c, 48 + d] =
      ((a * 1000 + b * 100 + c * 10 + d : Nat) : Int) := by
  have hs : isSpaceByte (48 + a) = false := isSpaceByte_of_digit _ (by omega)
  simp only [atoi, List.dropWhile, hs]
  have h45 : ((48 + a : Nat) == 45) = false := by simp; omega
  have h43 : ((48 + a : Nat) == 43) = false := by simp; omega
  simp only [h45, h43, Bool.false_eq_true, if_false]
  rw [digitsVal_cons 0 a _ ha, digitsVal_cons (0 * 10 + a) b _ hb]
  rw [digitsVal_cons _ c _ hc, digitsVal_cons _ d _ hd]
  simp only [digitsVal]
  congr 1
  ring

/-- Parsing a fully explicit 19-byte `YYYY-MM-DD HH:MM:SS` string recovers
the digit values of every field. -/
theorem stringToTime_explicit (mktime : Tm → Int)
    (y1 y2 y3 y4 m1 m2 d1 d2 h1 h2 n1 n2 s1 s2 : Nat)
    (hy1 : y1 < 10) (hy2 : y2 < 10) (hy3 : y3 < 10) (hy4 : y4 < 10)
    (hm1 : m1 < 10) (hm2 : m2 < 10) (hd1 : d1 < 10) (hd2 : d2 < 10)
    (hh1 : h1 < 10) (hh2 : h2 < 10) (hn1 : n1 < 10) (hn2 : n2 < 10)
    (hs1 : s1 < 10) (hs2 : s2 < 10) :
    xlog.stringToTime mktime
      [48 + y1, 48 + y2, 48 + y3, 48 + y4, 45, 48 + m1, 48 + m2, 45, 48 + d1, 48 + d2, 32,
       48 + h1, 48 + h2, 58, 48 + n1, 48 + n2, 58, 48 + s1, 48 + s2] =
    mktime
      { tm_year := ((y1 * 1000 + y2 * 100 + y3 * 10 + y4 : Nat) : Int) - 1900
        tm_mon := ((m1 * 10 + m2 : Nat) : Int) - 1
        tm_mday := ((d1 * 10 + d2 : Nat) : Int)
        tm_hour := ((h1 * 10 + h2 : Nat) : Int)
        tm_min := ((n1 * 10 + n2 : Nat) : Int)
        tm_sec := ((s1 * 10 + s2 : Nat) : Int) } := by
  show mktime
      { tm_year := atoi [48 + y1, 48 + y2, 48 + y3, 48 + y4] - 1900
        tm_mon := atoi [48 + m1, 48 + m2] - 1
        tm_mday := atoi [48 + d1, 48 + d2]
        tm_hour := atoi [48 + h1, 48 + h2]
        tm_min := atoi [48 + n1, 48 + n2]
        tm_sec := atoi [48 + s1, 48 + s2] } = _
  rw [atoi_four_digits y1 y2 y3 y4 hy1 hy2 hy3 hy4,
      atoi_two_digits m1 m2 hm1 hm2, atoi_two_digits d1 d2 hd1 hd2,
      atoi_two_digits h1 h2 hh1 hh2, atoi_two_digits n1 n2 hn1 hn2,
      atoi_two_digits s1 s2 hs1 hs2]

/-- C4, counterexample: with the cited xlog.h pair, formatting the instant
`t = 0` yields the bracketed string `[1970-01-01 00:00:00]`, whose leading
bracket shifts every fixed parse offset of `stringToTime`; parsing it back
does not return `0` (evaluated in the UTC model of the external calendar
functions; the offset mismatch misreads every field for any time zone). -/
theorem c4_bracketed_round_trip_fails :
    xlog.stringToTime mktimeUTC (xlogh.timeToString localtimeUTC 0) ≠ 0 := by decide

/-- C4 (amended): the unbracketed pair of the final evolution round-trips.
For any external `localtime`/`mktime` pair that inverts at `t` (the C
library contract) and any `t` whose broken-down local time has a four-digit
year and in-range fields, parsing the formatted string returns `t`. -/
theorem c4_round_trip_unbracketed (localtime : Int → Tm) (mktime : Tm → Int) (t : Int)
    (hinv : mktime (localtime t) = t)
    (hy1 : 1000 ≤ (localtime t).tm_year + 1900)
    (hy2 : (localtime t).tm_year + 1900 ≤ 9999)
    (hmo1 : 0 ≤ (localtime t).tm_mon) (hmo2 : (localtime t).tm_mon ≤ 11)
    (hda1 : 1 ≤ (localtime t).tm_mday) (hda2 : (localtime t).tm_mday ≤ 31)
    (hho1 : 0 ≤ (localtime t).tm_hour) (hho2 : (localtime t).tm_hour ≤ 23)
    (hmi1 : 0 ≤ (localtime t).tm_min) (hmi2 : (localtime t).tm_min ≤ 59)
    (hse1 : 0 ≤ (localtime t).tm_sec) (hse2 : (localtime t).tm_sec ≤ 59) :
    xlog.stringToTime mktime (xlog.timeToString localtime 58 45 32 t) = t := by
  have hfmt : xlog.timeToString localtime 58 45 32 t =
      [48 + ((localtime t).tm_year + 1900).toNat / 1000,
       48 + ((localtime t).tm_year + 1900).toNat / 100 % 10,
       48 + ((localtime t).tm_year + 1900).toNat / 10 % 10,
       48 + ((localtime t).tm_year + 1900).toNat % 10, 45,
       48 + ((localtime t).tm_mon + 1).toNat / 10,
       48 + ((localtime t).tm_mon + 1).toNat % 10, 45,
       48 + (localtime t).tm_mday.toNat / 10,
       48 + (localtime t).tm_mday.toNat % 10, 32,
       48 + (localtime t).tm_hour.toNat / 10,
       48 + (localtime t).tm_hour.toNat % 10, 58,
       48 + (localtime t).tm_min.toNat / 10,
       48 + (localtime t).tm_min.toNat % 10, 58,
       48 + (localtime t).tm_sec.toNat / 10,
       48 + (localtime t).tm_sec.toNat % 10] := by
    simp only [xlog.timeToString]
    rw [padTwo_eq (localtime t).tm_hour hho1 (by omega),
        padTwo_eq (localtime t).tm_min hmi1 (by omega),
        padTwo_eq (localtime t).tm_sec hse1 (by omega),
        padTwo_eq ((localtime t).tm_mon + 1) (by omega) (by omega),
        padTwo_eq (localtime t).tm_mday (by omega) (by omega)]
    rw [if_neg (by omega : ¬ ((localtime t).tm_year + 1900 < 1)),
        if_neg (by omega : ¬ ((localtime t).tm_year + 1900 < 10)),
        if_neg (by omega : ¬ ((localtime t).tm_year + 1900 < 100)),
        if_neg (by omega : ¬ ((localtime t).tm_year + 1900 < 1000))]
    rw [intToDec_nonneg ((localtime t).tm_year + 1900) (by omega),
        natToDec_four ((localtime t).tm_year + 1900).toNat (by omega) (by omega)]
    simp only [List.cons_append, List.nil_append]
  rw [hfmt]
  rw [stringToTime_explicit mktime
      (((localtime t).tm_year + 1900).toNat / 1000)
      (((localtime t).tm_year + 1900).toNat / 100 % 10)
      (((localtime t).tm_year + 1900).toNat / 10 % 10)
      (((localtime t).tm_year + 1900).toNat % 10)
      (((localtime t).tm_mon + 1).toNat / 10) (((localtime t).tm_mon + 1).toNat % 10)
      ((localtime t).tm_mday.toNat / 10) ((localtime t).tm_mday.toNat % 10)
      ((localtime t).tm_hour.toNat / 10) ((localtime t).tm_hour.toNat % 10)
      ((localtime t).tm_min.toNat / 10) ((localtime t).tm_min.toNat % 10)
      ((localtime t).tm_sec.toNat / 10) ((localtime t).tm_sec.toNat % 10)
      (by omega) (by omega) (by omega) (by omega) (by omega) (by omega) (by omega)
      (by omega) (by omega) (by omega) (by omega) (by omega) (by omega) (by omega)]
  rw [show ((((localtime t).tm_year + 1900).toNat / 1000 * 1000 +
        ((localtime t).tm_year + 1900).toNat / 100 % 10 * 100 +
        ((localtime t).tm_year + 1900).toNat / 10 % 10 * 10 +
        ((localtime t).tm_year + 1900).toNat % 10 : Nat) : Int) - 1900
        = (localtime t).tm_year by omega,
      show ((((localtime t).tm_mon + 1).toNat / 10 * 10 +
        ((localtime t).tm_mon + 1).toNat % 10 : Nat) : Int) - 1
        = (localtime t).tm_mon by omega,
      show (((localtime t).tm_mday.toNat / 10 * 10 +
        (localtime t).tm_mday.toNat % 10 : Nat) : Int) = (localtime t).tm_mday by omega,
      show (((localtime t).tm_hour.toNat / 10 * 10 +
        (localtime t).tm_hour.toNat % 10 : Nat) : Int) = (localtime t).tm_hour by omega,
      show (((localtime t).tm_min.toNat / 10 * 10 +
        (localtime t).tm_min.toNat % 10 : Nat) : Int) = (localtime t).tm_min by omega,
      show (((localtime t).tm_sec.toNat / 10 * 10 +
        (localtime t).tm_sec.toNat % 10 : Nat) : Int) = (localtime t).tm_sec by omega]
  exact hinv

/-- C4 witness: the amended round trip evaluated at `t = 1700000000`
(2023-11-14 22:13:20 UTC) with the concrete UTC calendar model. -/
theorem c4_round_trip_unbracketed_witness :
    xlog.stringToTime mktimeUTC (xlog.timeToString localtimeUTC 58 45 32 1700000000)
      = 1700000000 :=
  c4_round_trip_unbracketed localtimeUTC mktimeUTC 1700000000 (by decide)
    (by decide) (by decide) (by decide) (by decide) (by decide) (by decide)
    (by decide) (by decide) (by decide) (by decide) (by decide) (by decide)
